import Mathlib

/-!
Shallow embedding of the simple-interest loan service (`src/simple.py`) and
proofs about its specification claims.

Modelling conventions:

* Python `float` values are modelled as exact rationals (`ℚ`).  The spec fixes
  the rounding semantics of `round(x, 2)` as decimal round-half-to-even, which
  is what `rhe`/`round2` implement.
* Python integer `//` and `%` (floor division, nonnegative remainder for a
  positive divisor) coincide with Lean's `Int` `/` and `%` for the positive
  divisors used here.
* Errors returned by the code as HTTP 400 payloads are modelled as
  `Except.error msg` values carrying the exact message string from the source.
  An unhandled Python exception (the `ZeroDivisionError` reachable from the
  payment formula at line 97 of the source) is modelled as the `Option`
  value `none` at the outside of `amortize`.
* `datetime.fromisoformat(...).date()` is modelled for date-only ISO strings
  `YYYY-MM-DD` (the documented format used by the spec); `float(...)` is
  modelled for finite decimal literals (special strings such as `"inf"`,
  `"nan"` and underscore separators are not modelled).
-/

namespace SimpleLoan

/-- Round a rational to the nearest integer, ties to even (the semantics of
Python's built-in `round`, per the spec's rounding note). -/
def rhe (x : ℚ) : ℤ :=
  if x - Int.floor x < 1 / 2 then Int.floor x
  else if 1 / 2 < x - Int.floor x then Int.floor x + 1
  else if Int.floor x % 2 = 0 then Int.floor x else Int.floor x + 1

/-- Model of Python `round(x, 2)`: round half-to-even at two decimal places. -/
def round2 (x : ℚ) : ℚ := (rhe (100 * x) : ℚ) / 100

/-- Calendar date as carried by the Python `datetime.date` values in the
source.  Fields are integers; the code only ever constructs valid dates. -/
structure Date where
  year : ℤ
  month : ℤ
  day : ℤ
deriving DecidableEq, Repr, Inhabited

/-- Embedding of the leap-year test on line 58 of `src/simple.py`:
`year % 4 == 0 and (year % 100 != 0 or year % 400 == 0)`. -/
def isLeapYear (y : ℤ) : Bool :=
  y % 4 == 0 && (y % 100 != 0 || y % 400 == 0)

/-- Embedding of the `mdays` list on line 58 of `src/simple.py`. -/
def monthDays (y : ℤ) : List ℤ :=
  [31, if isLeapYear y then 29 else 28, 31, 30, 31, 30, 31, 31, 30, 31, 30, 31]

/-- Embedding of `add_months` (lines 53-60 of `src/simple.py`).  Python's
`//` and `%` on integers agree with Lean's `Int` division and remainder for
the positive divisor 12. -/
def add_months (d : Date) (months : ℤ) : Date :=
  { year := d.year + (d.month - 1 + months) / 12,
    month := (d.month - 1 + months) % 12 + 1,
    day := min d.day
      ((monthDays (d.year + (d.month - 1 + months) / 12)).getD
        ((d.month - 1 + months) % 12).toNat 0) }

/-- Spec-side restatement of the Gregorian leap-year rule, as a proposition:
divisible by 4, except centuries unless divisible by 400. -/
def LeapSpec (y : ℤ) : Prop :=
  y % 4 = 0 ∧ (y % 100 ≠ 0 ∨ y % 400 = 0)

instance (y : ℤ) : Decidable (LeapSpec y) := by
  unfold LeapSpec; infer_instance

/-- Spec-side last valid day of a month under the Gregorian rule, used to
state claim C5 independently of the `mdays` list of the source. -/
def lastDayOfMonth (y m : ℤ) : ℤ :=
  if m = 2 then (if LeapSpec y then 29 else 28)
  else if m = 4 ∨ m = 6 ∨ m = 9 ∨ m = 11 then 30 else 31

/-- Raw field value of the input mapping: JSON/form values are absent keys,
`null`, strings, or numbers (`PyVal.none` models Python `None`). -/
inductive PyVal where
  | none : PyVal
  | str : String → PyVal
  | num : ℚ → PyVal
deriving DecidableEq

def isDigitCh (c : Char) : Bool := 48 ≤ c.toNat && c.toNat ≤ 57

def digitVal (c : Char) : ℕ := c.toNat - 48

/-- Consume leading decimal digits, returning their value, how many digits
were read, and the remaining characters. -/
def parseDigitsAux : List Char → ℕ → ℕ → ℕ × ℕ × List Char
  | [], acc, cnt => (acc, cnt, [])
  | c :: cs, acc, cnt =>
    if isDigitCh c then parseDigitsAux cs (acc * 10 + digitVal c) (cnt + 1)
    else (acc, cnt, c :: cs)

/-- Exponent suffix of a Python float literal (`e`/`E`, optional sign,
digits). -/
def pyExp (mant : ℚ) (t : List Char) : Option ℚ :=
  let sgnt : Bool × List Char :=
    match t with
    | '+' :: u => (false, u)
    | '-' :: u => (true, u)
    | u => (false, u)
  let out := parseDigitsAux sgnt.2 0 0
  if out.2.1 = 0 then none
  else
    match out.2.2 with
    | [] => some (if sgnt.1 then mant / (10 : ℚ) ^ out.1 else mant * (10 : ℚ) ^ out.1)
    | _ => none

/-- Model of Python `float(s)` on strings: optional surrounding whitespace,
optional sign, decimal digits with an optional point and an optional
exponent.  Special values (`inf`, `nan`) and digit underscores are not
modelled. -/
def pyFloatOfString (s : String) : Option ℚ :=
  let sgncs : ℚ × List Char :=
    match s.trim.toList with
    | '+' :: t => (1, t)
    | '-' :: t => (-1, t)
    | t => (1, t)
  let ipart := parseDigitsAux sgncs.2 0 0
  let fpart : ℕ × ℕ × List Char :=
    match ipart.2.2 with
    | '.' :: t => parseDigitsAux t 0 0
    | t => (0, 0, t)
  if ipart.2.1 + fpart.2.1 = 0 then none
  else
    let mant : ℚ := sgncs.1 * ((ipart.1 : ℚ) + (fpart.1 : ℚ) / (10 : ℚ) ^ fpart.2.1)
    match fpart.2.2 with
    | [] => some mant
    | 'e' :: t => pyExp mant t
    | 'E' :: t => pyExp mant t
    | _ => none

/-- Model of Python `int(s)` on strings: optional surrounding whitespace,
optional sign, decimal digits only. -/
def pyIntOfString (s : String) : Option ℤ :=
  let sgncs : ℤ × List Char :=
    match s.trim.toList with
    | '+' :: t => (1, t)
    | '-' :: t => (-1, t)
    | t => (1, t)
  match parseDigitsAux sgncs.2 0 0 with
  | (v, cnt, []) => if cnt = 0 then none else some (sgncs.1 * (v : ℤ))
  | (_, _, _ :: _) => none

/-- Model of Python `int(q)` on numbers: truncation toward zero. -/
def truncQ (q : ℚ) : ℤ := if 0 ≤ q then Int.floor q else -Int.floor (-q)

/-- Embedding of `_parse_float` (lines 9-18 of `src/simple.py`).  `None` and
blank strings yield the default; other non-numeric strings produce the
`ValueError` message, returned here as an `Except.error` value. -/
def parseFloat (value : PyVal) (dflt : ℚ) (name : String) : Except String ℚ :=
  match value with
  | PyVal.none => Except.ok dflt
  | PyVal.str s =>
    if s.trim = "" then Except.ok dflt
    else
      match pyFloatOfString s with
      | some q => Except.ok q
      | Option.none => Except.error ("Invalid numeric input for " ++ name)
  | PyVal.num q => Except.ok q

/-- Embedding of `_parse_int` (lines 21-29 of `src/simple.py`). -/
def parseInt (value : PyVal) (dflt : ℤ) (name : String) : Except String ℤ :=
  match value with
  | PyVal.none => Except.ok dflt
  | PyVal.str s =>
    if s.trim = "" then Except.ok dflt
    else
      match pyIntOfString s with
      | some v => Except.ok v
      | Option.none => Except.error ("Invalid integer input for " ++ name)
  | PyVal.num q => Except.ok (truncQ q)

/-- Model of `datetime.fromisoformat(s).date()` for the date-only format
`YYYY-MM-DD` (the format named by the spec): four year digits, two month
digits, two day digits, with calendar validation against the month length
and the Gregorian leap rule. -/
def fromIso (s : String) : Option Date :=
  match s.toList with
  | [y1, y2, y3, y4, h1, m1, m2, h2, d1, d2] =>
    if isDigitCh y1 && isDigitCh y2 && isDigitCh y3 && isDigitCh y4 &&
       (h1 == '-') && isDigitCh m1 && isDigitCh m2 && (h2 == '-') &&
       isDigitCh d1 && isDigitCh d2 then
      let y : ℤ := (digitVal y1 * 1000 + digitVal y2 * 100 + digitVal y3 * 10 + digitVal y4 : ℕ)
      let m : ℤ := (digitVal m1 * 10 + digitVal m2 : ℕ)
      let d : ℤ := (digitVal d1 * 10 + digitVal d2 : ℕ)
      if 1 ≤ y ∧ 1 ≤ m ∧ m ≤ 12 ∧ 1 ≤ d ∧ d ≤ (monthDays y).getD (m - 1).toNat 0
      then some ⟨y, m, d⟩ else none
    else none
  | _ => none

/-- Embedding of the start-date handling on lines 100-106 of
`src/simple.py`: a missing or empty (falsy) `start_date` defaults to today's
date; otherwise the string must parse as an ISO date. -/
def parseStartDate (v : Option String) (today : Date) : Except String Date :=
  match v with
  | some s =>
    if s = "" then Except.ok today
    else
      match fromIso s with
      | some d => Except.ok d
      | Option.none => Except.error "Invalid start_date format, use YYYY-MM-DD"
  | Option.none => Except.ok today

/-- Dictionary lookup, modelling `data.get(key)`. -/
def lookupField (data : List (String × PyVal)) (k : String) : Option PyVal :=
  (data.find? (fun p => p.1 == k)).map (fun p => p.2)

/-- View a raw value as the start-date string: Python `None` (or an absent
key) is falsy and maps to `Option.none`; non-string values are not
modelled. -/
def asStrOpt : Option PyVal → Option String
  | some (PyVal.str s) => some s
  | _ => none

/-- Typed loan request, the output of the input normalizer (spec section 3).
`include_schedule` and `export` only affect the serialization layer, which is
out of scope, and are omitted. -/
structure LoanRequest where
  principal : ℚ
  annual_rate : ℚ
  term_years : ℚ
  payments_per_year : ℤ
  start_date : Date
deriving DecidableEq, Repr

/-- Validity of a request per the spec data model (section 3): nonnegative
principal and rate, positive term, positive integer payment frequency. -/
def ValidRequest (req : LoanRequest) : Prop :=
  0 ≤ req.principal ∧ 0 ≤ req.annual_rate ∧ 0 < req.term_years ∧
    0 < req.payments_per_year

instance (req : LoanRequest) : Decidable (ValidRequest req) := by
  unfold ValidRequest; infer_instance

/-- Embedding of the input normalization on lines 78-84 and 100-106 of
`src/simple.py`: each numeric field is coerced with `_parse_float` /
`_parse_int` (absent keys get the dictionary defaults `0` resp. `12`), and
the start date is coerced with the ISO parser, defaulting to `today`. -/
def normalize (data : List (String × PyVal)) (today : Date) :
    Except String LoanRequest := do
  let principal ← parseFloat ((lookupField data "principal").getD (PyVal.num 0)) 0 "principal"
  let annual_rate ← parseFloat
    ((lookupField data "annual_rate").getD ((lookupField data "rate").getD (PyVal.num 0)))
    0 "annual_rate"
  let term_years ← parseFloat
    ((lookupField data "term_years").getD ((lookupField data "time").getD (PyVal.num 0)))
    0 "term_years"
  let ppy ← parseInt ((lookupField data "payments_per_year").getD (PyVal.num 12)) 12
    "payments_per_year"
  let sd ← parseStartDate (asStrOpt (lookupField data "start_date")) today
  pure { principal := principal, annual_rate := annual_rate,
         term_years := term_years, payments_per_year := ppy, start_date := sd }

/-- One line of the amortization schedule (the dict appended on lines
126-133 of `src/simple.py`). -/
structure PaymentLine where
  payment_no : ℤ
  date : Date
  payment : ℚ
  interest : ℚ
  principal : ℚ
  balance : ℚ
deriving DecidableEq, Repr, Inhabited

/-- Aggregate result of the amortization engine (lines 137-143). -/
structure AmortizationResult where
  payment : ℚ
  total_interest : ℚ
  total_payment : ℚ
  schedule : List PaymentLine
deriving DecidableEq, Repr, Inhabited

/-- Embedding of `n_payments = int(round(term_years * payments_per_year))`
(line 88). -/
def n_payments (req : LoanRequest) : ℤ :=
  rhe (req.term_years * (req.payments_per_year : ℚ))

/-- Embedding of `periodic_rate = (annual_rate / 100.0) / payments_per_year`
(line 92). -/
def periodic_rate (req : LoanRequest) : ℚ :=
  (req.annual_rate / 100) / (req.payments_per_year : ℚ)

/-- Embedding of the level-payment computation (lines 94-97). -/
def levelPay (req : LoanRequest) : ℚ :=
  if periodic_rate req = 0 then round2 (req.principal / (n_payments req : ℚ))
  else round2 (req.principal * periodic_rate req /
    (1 - (1 + periodic_rate req) ^ (-n_payments req)))

/-- Condition under which line 97 of the source raises `ZeroDivisionError`
instead of producing a payment: a nonzero periodic rate whose annuity
denominator is undefined (`0.0 ** -n`) or zero. -/
def payCrash (req : LoanRequest) : Prop :=
  periodic_rate req ≠ 0 ∧
    (1 + periodic_rate req = 0 ∨
      1 - (1 + periodic_rate req) ^ (-n_payments req) = 0)

instance (req : LoanRequest) : Decidable (payCrash req) := by
  unfold payCrash; infer_instance

/-- Balance update of one non-final loop iteration (lines 113-122):
interest, principal paid, and the rounded new balance. -/
def nextBal (pay r b : ℚ) : ℚ :=
  round2 (b - round2 (pay - round2 (b * r)))

/-- Running balance before period `j + 1`, starting from `b` (iterated
non-final balance updates). -/
def balFrom (pay r b : ℚ) : ℕ → ℚ
  | 0 => b
  | j + 1 => nextBal pay r (balFrom pay r b j)

/-- Embedding of the schedule loop (lines 112-133 of `src/simple.py`).
`rem` is the number of remaining iterations (the loop runs
`for i in range(1, n_payments + 1)`), `i` the current 1-based period number,
`balance` the running balance.  Returns the schedule lines together with the
accumulated `total_interest`. -/
def schedAux (pay r : ℚ) (start : Date) (n : ℕ) :
    ℕ → ℕ → ℚ → List PaymentLine × ℚ
  | 0, _, _ => ([], 0)
  | rem + 1, i, balance =>
    let interest := round2 (balance * r)
    if i = n then
      let principal_paid := round2 balance
      let payment_amount := round2 (principal_paid + interest)
      let rest := schedAux pay r start n rem (i + 1) 0
      ({ payment_no := (i : ℤ), date := add_months start ((i : ℤ) - 1),
         payment := round2 payment_amount, interest := interest,
         principal := principal_paid, balance := round2 (0 : ℚ) } :: rest.1,
       interest + rest.2)
    else
      let principal_paid := round2 (pay - interest)
      let newBal := round2 (balance - principal_paid)
      let rest := schedAux pay r start n rem (i + 1) newBal
      ({ payment_no := (i : ℤ), date := add_months start ((i : ℤ) - 1),
         payment := round2 pay, interest := interest,
         principal := principal_paid, balance := round2 newBal } :: rest.1,
       interest + rest.2)

/-- The full schedule loop of `simple_loan`, started at period 1 with the
original principal. -/
def loanLoop (req : LoanRequest) : List PaymentLine × ℚ :=
  schedAux (levelPay req) (periodic_rate req) req.start_date
    (n_payments req).toNat (n_payments req).toNat 1 req.principal

/-- Embedding of the amortization engine of `simple_loan` (lines 88-141 of
`src/simple.py`), over an already-normalized request (the spec's
`amortize` interface).  `some (Except.error msg)` models the HTTP 400
response with that message; `none` models the unhandled `ZeroDivisionError`
reachable from line 97. -/
def amortize (req : LoanRequest) : Option (Except String AmortizationResult) :=
  if n_payments req ≤ 0 then some (Except.error "Term must be positive")
  else if payCrash req then none
  else some (Except.ok
    { payment := round2 (levelPay req),
      total_interest := round2 (loanLoop req).2,
      total_payment := round2 (req.principal + (loanLoop req).2),
      schedule := (loanLoop req).1 })

/-- Closed form of the schedule line produced at offset `j` by a loop whose
current period is `i` with running balance `b`.  Used to characterize
`schedAux`. -/
def lineFrom (pay r : ℚ) (start : Date) (n i : ℕ) (b : ℚ) (j : ℕ) : PaymentLine :=
  let bj := balFrom pay r b j
  let interest := round2 (bj * r)
  if i + j = n then
    { payment_no := ((i + j : ℕ) : ℤ),
      date := add_months start (((i + j : ℕ) : ℤ) - 1),
      payment := round2 (round2 (round2 bj + interest)), interest := interest,
      principal := round2 bj, balance := round2 (0 : ℚ) }
  else
    { payment_no := ((i + j : ℕ) : ℤ),
      date := add_months start (((i + j : ℕ) : ℤ) - 1),
      payment := round2 pay, interest := interest,
      principal := round2 (pay - interest),
      balance := round2 (nextBal pay r bj) }

/-- Closed form of the whole schedule of a request. -/
def schedList (req : LoanRequest) : List PaymentLine :=
  (List.range (n_payments req).toNat).map
    (lineFrom (levelPay req) (periodic_rate req) req.start_date
      (n_payments req).toNat 1 req.principal)

/-- The successful result of `amortize`, when there is one. -/
def resultOf (req : LoanRequest) : AmortizationResult :=
  match amortize req with
  | some (Except.ok res) => res
  | _ => default

/-- Schedule of the successful result of `amortize`. -/
def schedOf (req : LoanRequest) : List PaymentLine := (resultOf req).schedule

/-- Sum of the `principal` fields of a schedule. -/
def sumPrincipal (L : List PaymentLine) : ℚ := (L.map (fun l => l.principal)).sum

/-- Balance entering schedule line `i` (0-based): the original principal for
the first line, the previous line's `balance` field afterwards. -/
def prevBal (P : ℚ) (L : List PaymentLine) (i : ℕ) : ℚ :=
  if i = 0 then P else (L.getD (i - 1) default).balance

/-- Fixed date used to instantiate examples. -/
def date0 : Date := ⟨2024, 1, 1⟩

/-- The concrete scenario of claim C6: principal 1200, annual rate 12,
term 1 year, 12 payments per year, starting 2024-01-01. -/
def req6 : LoanRequest :=
  { principal := 1200, annual_rate := 12, term_years := 1,
    payments_per_year := 12, start_date := date0 }

/-- Request with a zero term, for claim C7. -/
def req7 : LoanRequest :=
  { principal := 1000, annual_rate := 5, term_years := 0,
    payments_per_year := 12, start_date := date0 }

/-- Negative-rate request with periodic rate −2 and an even number of
payments, for claim C10. -/
def exA : LoanRequest :=
  { principal := 100, annual_rate := -2400, term_years := 1/6,
    payments_per_year := 12, start_date := date0 }

/-- Negative-rate request with periodic rate −1, for claim C10. -/
def exB : LoanRequest :=
  { principal := 100, annual_rate := -1200, term_years := 1,
    payments_per_year := 12, start_date := date0 }

/-- Valid request whose schedule drives the running balance negative before
the final period: principal 16, annual rate 120 percent, five years of
monthly payments. -/
def ex3 : LoanRequest :=
  { principal := 16, annual_rate := 120, term_years := 5,
    payments_per_year := 12, start_date := date0 }

/-! ### Rounding lemmas -/

/-- Half-even rounding of an integer is the integer itself. -/
theorem rhe_intCast (k : ℤ) : rhe (k : ℚ) = k := by
  unfold rhe
  rw [Int.floor_intCast]
  simp

/-- Half-even rounding moves a rational by at most one half. -/
theorem abs_rhe_sub (x : ℚ) : |(rhe x : ℚ) - x| ≤ 1 / 2 := by
  unfold rhe
  have h1 : ((Int.floor x : ℤ) : ℚ) ≤ x := Int.floor_le x
  have h2 : x < (Int.floor x : ℚ) + 1 := Int.lt_floor_add_one x
  split
  · rename_i hlt
    rw [abs_sub_comm, abs_of_nonneg (by linarith)]
    linarith
  · rename_i hge
    split
    · rename_i hgt
      rw [abs_of_nonneg (by push_cast; linarith)]
      push_cast
      linarith
    · rename_i hgt
      have hfr : x - (Int.floor x : ℚ) = 1 / 2 := by linarith
      split
      · rw [abs_sub_comm, abs_of_nonneg (by linarith)]
        linarith
      · rw [abs_of_nonneg (by push_cast; linarith)]
        push_cast
        linarith

/-- Rounding to two decimals moves a rational by at most `1 / 200`. -/
theorem abs_round2_sub (x : ℚ) : |round2 x - x| ≤ 1 / 200 := by
  unfold round2
  have h := abs_rhe_sub (100 * x)
  have h100 : |(100 : ℚ)| = 100 := by norm_num
  calc |(rhe (100 * x) : ℚ) / 100 - x|
      = |((rhe (100 * x) : ℚ) - 100 * x) / 100| := by ring_nf
    _ = |(rhe (100 * x) : ℚ) - 100 * x| / 100 := by rw [abs_div, h100]
    _ ≤ (1 / 2) / 100 := by linarith
    _ = 1 / 200 := by norm_num

/-- Rounding to two decimals is idempotent. -/
theorem round2_idem (x : ℚ) : round2 (round2 x) = round2 x := by
  unfold round2
  have h : (100 : ℚ) * ((rhe (100 * x) : ℚ) / 100) = (rhe (100 * x) : ℚ) := by
    field_simp
  rw [h, rhe_intCast]

/-- Rounding zero gives zero. -/
theorem round2_zero : round2 0 = 0 := by
  unfold round2
  rw [show (100 : ℚ) * 0 = ((0 : ℤ) : ℚ) by norm_num, rhe_intCast]
  norm_num

/-! ### Date stepping (claim C5) -/

/-- The Boolean leap test of the source agrees with the spec's Gregorian
rule. -/
theorem isLeapYear_iff (y : ℤ) : isLeapYear y = true ↔ LeapSpec y := by
  unfold isLeapYear LeapSpec
  simp [Bool.and_eq_true, Bool.or_eq_true]

/-- The `mdays` lookup of the source returns the Gregorian last day of the
target month, for any month index produced by the modulus. -/
theorem monthDays_getD (y t : ℤ) (h0 : 0 ≤ t) (h12 : t < 12) :
    (monthDays y).getD t.toNat 0 = lastDayOfMonth y (t + 1) := by
  unfold monthDays lastDayOfMonth
  interval_cases t <;>
    norm_num <;>
    first
      | rfl
      | exact if_congr (isLeapYear_iff y) rfl rfl

/-- Claim C5: advancing a date by `k ≥ 0` months computes the target year and
month by floor division and modulus on `month - 1 + k` and clamps the day to
the Gregorian last day of the target month; in particular
Jan 31, 2024 + 1 month = Feb 29, 2024 and Jan 31, 2023 + 1 month =
Feb 28, 2023. -/
theorem c5_add_months :
    (∀ (d : Date) (k : ℕ),
      add_months d (k : ℤ) =
        { year := d.year + (d.month - 1 + (k : ℤ)) / 12,
          month := (d.month - 1 + (k : ℤ)) % 12 + 1,
          day := min d.day
            (lastDayOfMonth (d.year + (d.month - 1 + (k : ℤ)) / 12)
              ((d.month - 1 + (k : ℤ)) % 12 + 1)) }) ∧
    add_months ⟨2024, 1, 31⟩ 1 = ⟨2024, 2, 29⟩ ∧
    add_months ⟨2023, 1, 31⟩ 1 = ⟨2023, 2, 28⟩ := by
  refine ⟨?_, by with_unfolding_all rfl, by with_unfolding_all rfl⟩
  intro d k
  unfold add_months
  have h0 : 0 ≤ (d.month - 1 + (k : ℤ)) % 12 :=
    Int.emod_nonneg _ (by norm_num)
  have h12 : (d.month - 1 + (k : ℤ)) % 12 < 12 :=
    Int.emod_lt_of_pos _ (by norm_num)
  rw [monthDays_getD _ _ h0 h12]

/-! ### Characterization of the schedule loop -/

/-- Peeling one balance update off the front of `balFrom`. -/
theorem balFrom_shift (pay r b : ℚ) :
    ∀ j, balFrom pay r b (j + 1) = balFrom pay r (nextBal pay r b) j := by
  intro j
  induction j with
  | zero => rfl
  | succ j ih =>
    rw [show balFrom pay r b (j + 1 + 1) = nextBal pay r (balFrom pay r b (j + 1)) from rfl,
      ih]
    rfl

/-- Shifting the closed-form line one period forward. -/
theorem lineFrom_shift (pay r : ℚ) (start : Date) (n i : ℕ) (b : ℚ) (j : ℕ) :
    lineFrom pay r start n i b (j + 1) =
      lineFrom pay r start n (i + 1) (nextBal pay r b) j := by
  unfold lineFrom
  rw [balFrom_shift, show i + (j + 1) = (i + 1) + j from by omega]

/-- The schedule loop produces exactly the closed-form lines, and its
interest accumulator is their summed `interest` fields. -/
theorem schedAux_char (pay r : ℚ) (start : Date) (n : ℕ) :
    ∀ (rem i : ℕ) (b : ℚ), i + rem = n + 1 →
      schedAux pay r start n rem i b =
        ((List.range rem).map (lineFrom pay r start n i b),
         ((List.range rem).map
            (fun j => (lineFrom pay r start n i b j).interest)).sum) := by
  intro rem
  induction rem with
  | zero => intro i b h; rfl
  | succ m ih =>
    intro i b h
    by_cases hin : i = n
    · have hm : m = 0 := by omega
      subst hm
      subst hin
      simp only [schedAux, ite_true]
      have hhead : lineFrom pay r start i i b 0 =
          { payment_no := (i : ℤ), date := add_months start ((i : ℤ) - 1),
            payment := round2 (round2 (round2 b + round2 (b * r))),
            interest := round2 (b * r), principal := round2 b,
            balance := round2 0 } := by
        unfold lineFrom
        rw [if_pos (by omega : i + 0 = i)]
        rfl
      rw [show List.range 1 = [0] from rfl, List.map_cons, List.map_cons,
        List.map_nil, List.map_nil, List.sum_cons, List.sum_nil, hhead]
    · have h2 : (i + 1) + m = n + 1 := by omega
      have hnb : round2 (b - round2 (pay - round2 (b * r))) = nextBal pay r b := rfl
      simp only [schedAux]
      rw [if_neg hin, hnb, ih (i + 1) (nextBal pay r b) h2]
      rw [List.range_succ_eq_map, List.map_cons, List.map_cons,
        List.map_map, List.map_map, List.sum_cons]
      have hcomp1 : (lineFrom pay r start n i b ∘ Nat.succ) =
          lineFrom pay r start n (i + 1) (nextBal pay r b) := by
        funext j
        exact lineFrom_shift pay r start n i b j
      have hcomp2 : ((fun j => (lineFrom pay r start n i b j).interest) ∘ Nat.succ) =
          (fun j => (lineFrom pay r start n (i + 1) (nextBal pay r b) j).interest) := by
        funext j
        rw [Function.comp_apply, lineFrom_shift]
      have hhead : lineFrom pay r start n i b 0 =
          { payment_no := (i : ℤ), date := add_months start ((i : ℤ) - 1),
            payment := round2 pay, interest := round2 (b * r),
            principal := round2 (pay - round2 (b * r)),
            balance := round2 (nextBal pay r b) } := by
        unfold lineFrom
        rw [if_neg (by omega : ¬ i + 0 = n)]
        rfl
      rw [hcomp1, hcomp2, hhead]

/-- The level payment is already rounded to two decimals. -/
theorem levelPay_round2 (req : LoanRequest) :
    round2 (levelPay req) = levelPay req := by
  unfold levelPay
  split
  · exact round2_idem _
  · exact round2_idem _

/-- Inversion of a successful run of `amortize`: the term count is positive,
the reported payment is the level payment, and the schedule is the closed
form. -/
theorem amortize_eq_ok (req : LoanRequest) (res : AmortizationResult)
    (h : amortize req = some (Except.ok res)) :
    0 < n_payments req ∧ res.payment = levelPay req ∧
      res.schedule = schedList req := by
  unfold amortize at h
  split at h
  · exact absurd h (by simp)
  · rename_i hn
    split at h
    · exact absurd h (by simp)
    · simp only [Option.some.injEq, Except.ok.injEq] at h
      subst h
      refine ⟨by omega, levelPay_round2 req, ?_⟩
      show (loanLoop req).1 = schedList req
      unfold loanLoop schedList
      rw [schedAux_char _ _ _ _ _ _ _ (by omega)]

/-- Element lookup in a mapped range. -/
theorem getD_map_range {α : Type} [Inhabited α] (f : ℕ → α) (n j : ℕ)
    (hj : j < n) : ((List.range n).map f).getD j default = f j := by
  rw [List.getD_eq_getElem?_getD, List.getElem?_map, List.getElem?_range hj]
  rfl

/-- Length of the closed-form schedule. -/
theorem schedList_length (req : LoanRequest) :
    (schedList req).length = (n_payments req).toNat := by
  unfold schedList
  rw [List.length_map, List.length_range]

/-- Rounding a balance produced by the loop is a no-op. -/
theorem round2_nextBal (pay r b : ℚ) :
    round2 (nextBal pay r b) = nextBal pay r b := by
  unfold nextBal
  exact round2_idem _

/-- Interest field of a closed-form line. -/
theorem lineFrom_interest (pay r : ℚ) (start : Date) (n i : ℕ) (b : ℚ) (j : ℕ) :
    (lineFrom pay r start n i b j).interest = round2 (balFrom pay r b j * r) := by
  unfold lineFrom
  split <;> rfl

/-- Principal field of a non-final closed-form line. -/
theorem lineFrom_principal_nonfinal (pay r : ℚ) (start : Date) (n i : ℕ)
    (b : ℚ) (j : ℕ) (hj : i + j ≠ n) :
    (lineFrom pay r start n i b j).principal =
      round2 (pay - round2 (balFrom pay r b j * r)) := by
  unfold lineFrom
  rw [if_neg hj]

/-- Balance field of a non-final closed-form line. -/
theorem lineFrom_balance_nonfinal (pay r : ℚ) (start : Date) (n i : ℕ)
    (b : ℚ) (j : ℕ) (hj : i + j ≠ n) :
    (lineFrom pay r start n i b j).balance =
      nextBal pay r (balFrom pay r b j) := by
  unfold lineFrom
  rw [if_neg hj]
  exact round2_nextBal _ _ _

/-- Fields of a final closed-form line. -/
theorem lineFrom_final (pay r : ℚ) (start : Date) (n i : ℕ) (b : ℚ) (j : ℕ)
    (hj : i + j = n) :
    (lineFrom pay r start n i b j).principal = round2 (balFrom pay r b j) ∧
    (lineFrom pay r start n i b j).payment =
      round2 (round2 (round2 (balFrom pay r b j) + round2 (balFrom pay r b j * r))) ∧
    (lineFrom pay r start n i b j).balance = 0 := by
  unfold lineFrom
  rw [if_pos hj]
  exact ⟨rfl, rfl, round2_zero⟩

/-- The balance entering line `i` of a successful schedule is the iterated
running balance `balFrom ... i`. -/
theorem prevBal_eq (req : LoanRequest) (res : AmortizationResult)
    (h : amortize req = some (Except.ok res)) (i : ℕ)
    (hi : i < res.schedule.length) :
    prevBal req.principal res.schedule i =
      balFrom (levelPay req) (periodic_rate req) req.principal i := by
  obtain ⟨hn, hpay, hs⟩ := amortize_eq_ok req res h
  by_cases h0 : i = 0
  · subst h0
    rfl
  · unfold prevBal
    rw [if_neg h0, hs]
    have hlen : res.schedule.length = (n_payments req).toNat := by
      rw [hs, schedList_length]
    have hi2 : i - 1 < (n_payments req).toNat := by omega
    unfold schedList
    rw [getD_map_range _ _ _ hi2]
    have hnf : 1 + (i - 1) ≠ (n_payments req).toNat := by omega
    rw [lineFrom_balance_nonfinal _ _ _ _ _ _ _ hnf]
    rw [show i = (i - 1) + 1 from by omega]
    rfl

/-! ### Claims C1 to C4 -/

/-- Claim C1: for every request on which `amortize` succeeds, the reported
level payment is `round(principal / n, 2)` when the periodic rate is zero and
the rounded annuity formula
`round(principal * rate / (1 - (1 + rate) ** (-n)), 2)` otherwise, with
`periodic_rate = (annual_rate / 100) / payments_per_year`. -/
theorem c1_level_payment (req : LoanRequest) (res : AmortizationResult)
    (h : amortize req = some (Except.ok res)) :
    res.payment =
      if periodic_rate req = 0 then
        round2 (req.principal / (n_payments req : ℚ))
      else
        round2 (req.principal * periodic_rate req /
          (1 - (1 + periodic_rate req) ^ (-n_payments req))) :=
  (amortize_eq_ok req res h).2.1

/-- Witness for claim C1 at the concrete request `req6`. -/
theorem c1_level_payment_witness :
    (resultOf req6).payment =
      if periodic_rate req6 = 0 then
        round2 (req6.principal / (n_payments req6 : ℚ))
      else
        round2 (req6.principal * periodic_rate req6 /
          (1 - (1 + periodic_rate req6) ^ (-n_payments req6))) :=
  c1_level_payment req6 (resultOf req6) (by with_unfolding_all rfl)

/-- Claim C2: in a successful schedule, each line's interest is the rounded
periodic interest on the balance entering the line; each non-final line's
principal is `round(payment - interest, 2)`; and on the final line the
principal is the entire remaining balance rounded, with the period's payment
recomputed as `round(principal + interest, 2)`. -/
theorem c2_period_split (req : LoanRequest) (res : AmortizationResult)
    (h : amortize req = some (Except.ok res)) (i : ℕ)
    (hi : i < res.schedule.length) :
    (res.schedule.getD i default).interest =
      round2 (prevBal req.principal res.schedule i * periodic_rate req) ∧
    (i + 1 ≠ res.schedule.length →
      (res.schedule.getD i default).principal =
        round2 (res.payment - (res.schedule.getD i default).interest)) ∧
    (i + 1 = res.schedule.length →
      (res.schedule.getD i default).principal =
        round2 (prevBal req.principal res.schedule i) ∧
      (res.schedule.getD i default).payment =
        round2 ((res.schedule.getD i default).principal +
          (res.schedule.getD i default).interest)) := by
  obtain ⟨hn, hpay, hs⟩ := amortize_eq_ok req res h
  have hlen : res.schedule.length = (n_payments req).toNat := by
    rw [hs, schedList_length]
  have hi2 : i < (n_payments req).toNat := by omega
  have hpb := prevBal_eq req res h i hi
  have hget : res.schedule.getD i default =
      lineFrom (levelPay req) (periodic_rate req) req.start_date
        (n_payments req).toNat 1 req.principal i := by
    rw [hs]
    unfold schedList
    exact getD_map_range _ _ _ hi2
  refine ⟨?_, ?_, ?_⟩
  · rw [hget, lineFrom_interest, hpb]
  · intro hne
    have hnf : 1 + i ≠ (n_payments req).toNat := by omega
    rw [hget, lineFrom_principal_nonfinal _ _ _ _ _ _ _ hnf,
      lineFrom_interest, hpay]
  · intro hfin
    have hf : 1 + i = (n_payments req).toNat := by omega
    obtain ⟨hp, hpp, _⟩ := lineFrom_final (levelPay req) (periodic_rate req)
      req.start_date (n_payments req).toNat 1 req.principal i hf
    refine ⟨by rw [hget, hp, hpb], ?_⟩
    rw [hget, hpp, hp, lineFrom_interest]
    exact round2_idem _

/-- Witness for claim C2 at the concrete request `req6`, first line. -/
theorem c2_period_split_witness :
    ((resultOf req6).schedule.getD 0 default).interest =
      round2 (prevBal req6.principal (resultOf req6).schedule 0 *
        periodic_rate req6) ∧
    (0 + 1 ≠ (resultOf req6).schedule.length →
      ((resultOf req6).schedule.getD 0 default).principal =
        round2 ((resultOf req6).payment -
          ((resultOf req6).schedule.getD 0 default).interest)) ∧
    (0 + 1 = (resultOf req6).schedule.length →
      ((resultOf req6).schedule.getD 0 default).principal =
        round2 (prevBal req6.principal (resultOf req6).schedule 0) ∧
      ((resultOf req6).schedule.getD 0 default).payment =
        round2 (((resultOf req6).schedule.getD 0 default).principal +
          ((resultOf req6).schedule.getD 0 default).interest)) :=
  c2_period_split req6 (resultOf req6) (by with_unfolding_all rfl) 0
    (by with_unfolding_all decide)

/-- Concrete evaluation of the running balance of `ex3`: after 59 balance
updates the running balance is already negative. -/
theorem ex3_balFrom_59 :
    balFrom (161 / 100) (1 / 10) 16 59 = -921 / 100 := by
  have h0 : balFrom (161 / 100) (1 / 10) 16 0 = (16 : ℚ) := rfl
  have h1 : balFrom (161 / 100) (1 / 10) 16 1 = (1599 / 100 : ℚ) := by
    rw [show balFrom (161 / 100) (1 / 10) 16 1 =
      nextBal (161 / 100) (1 / 10) (balFrom (161 / 100) (1 / 10) 16 0) from rfl,
      h0]
    with_unfolding_all rfl
  have h2 : balFrom (161 / 100) (1 / 10) 16 2 = (799 / 50 : ℚ) := by
    rw [show balFrom (161 / 100) (1 / 10) 16 2 =
      nextBal (161 / 100) (1 / 10) (balFrom (161 / 100) (1 / 10) 16 1) from rfl,
      h1]
    with_unfolding_all rfl
  have h3 : balFrom (161 / 100) (1 / 10) 16 3 = (1597 / 100 : ℚ) := by
    rw [show balFrom (161 / 100) (1 / 10) 16 3 =
      nextBal (161 / 100) (1 / 10) (balFrom (161 / 100) (1 / 10) 16 2) from rfl,
      h2]
    with_unfolding_all rfl
  have h4 : balFrom (161 / 100) (1 / 10) 16 4 = (399 / 25 : ℚ) := by
    rw [show balFrom (161 / 100) (1 / 10) 16 4 =
      nextBal (161 / 100) (1 / 10) (balFrom (161 / 100) (1 / 10) 16 3) from rfl,
      h3]
    with_unfolding_all rfl
  have h5 : balFrom (161 / 100) (1 / 10) 16 5 = (319 / 20 : ℚ) := by
    rw [show balFrom (161 / 100) (1 / 10) 16 5 =
      nextBal (161 / 100) (1 / 10) (balFrom (161 / 100) (1 / 10) 16 4) from rfl,
      h4]
    with_unfolding_all rfl
  have h6 : balFrom (161 / 100) (1 / 10) 16 6 = (797 / 50 : ℚ) := by
    rw [show balFrom (161 / 100) (1 / 10) 16 6 =
      nextBal (161 / 100) (1 / 10) (balFrom (161 / 100) (1 / 10) 16 5) from rfl,
      h5]
    with_unfolding_all rfl
  have h7 : balFrom (161 / 100) (1 / 10) 16 7 = (398 / 25 : ℚ) := by
    rw [show balFrom (161 / 100) (1 / 10) 16 7 =
      nextBal (161 / 100) (1 / 10) (balFrom (161 / 100) (1 / 10) 16 6) from rfl,
      h6]
    with_unfolding_all rfl
  have h8 : balFrom (161 / 100) (1 / 10) 16 8 = (159 / 10 : ℚ) := by
    rw [show balFrom (161 / 100) (1 / 10) 16 8 =
      nextBal (161 / 100) (1 / 10) (balFrom (161 / 100) (1 / 10) 16 7) from rfl,
      h7]
    with_unfolding_all rfl
  have h9 : balFrom (161 / 100) (1 / 10) 16 9 = (397 / 25 : ℚ) := by
    rw [show balFrom (161 / 100) (1 / 10) 16 9 =
      nextBal (161 / 100) (1 / 10) (balFrom (161 / 100) (1 / 10) 16 8) from rfl,
      h8]
    with_unfolding_all rfl
  have h10 : balFrom (161 / 100) (1 / 10) 16 10 = (793 / 50 : ℚ) := by
    rw [show balFrom (161 / 100) (1 / 10) 16 10 =
      nextBal (161 / 100) (1 / 10) (balFrom (161 / 100) (1 / 10) 16 9) from rfl,
      h9]
    with_unfolding_all rfl
  have h11 : balFrom (161 / 100) (1 / 10) 16 11 = (396 / 25 : ℚ) := by
    rw [show balFrom (161 / 100) (1 / 10) 16 11 =
      nextBal (161 / 100) (1 / 10) (balFrom (161 / 100) (1 / 10) 16 10) from rfl,
      h10]
    with_unfolding_all rfl
  have h12 : balFrom (161 / 100) (1 / 10) 16 12 = (1581 / 100 : ℚ) := by
    rw [show balFrom (161 / 100) (1 / 10) 16 12 =
      nextBal (161 / 100) (1 / 10) (balFrom (161 / 100) (1 / 10) 16 11) from rfl,
      h11]
    with_unfolding_all rfl
  have h13 : balFrom (161 / 100) (1 / 10) 16 13 = (789 / 50 : ℚ) := by
    rw [show balFrom (161 / 100) (1 / 10) 16 13 =
      nextBal (161 / 100) (1 / 10) (balFrom (161 / 100) (1 / 10) 16 12) from rfl,
      h12]
    with_unfolding_all rfl
  have h14 : balFrom (161 / 100) (1 / 10) 16 14 = (63 / 4 : ℚ) := by
    rw [show balFrom (161 / 100) (1 / 10) 16 14 =
      nextBal (161 / 100) (1 / 10) (balFrom (161 / 100) (1 / 10) 16 13) from rfl,
      h13]
    with_unfolding_all rfl
  have h15 : balFrom (161 / 100) (1 / 10) 16 15 = (393 / 25 : ℚ) := by
    rw [show balFrom (161 / 100) (1 / 10) 16 15 =
      nextBal (161 / 100) (1 / 10) (balFrom (161 / 100) (1 / 10) 16 14) from rfl,
      h14]
    with_unfolding_all rfl
  have h16 : balFrom (161 / 100) (1 / 10) 16 16 = (392 / 25 : ℚ) := by
    rw [show balFrom (161 / 100) (1 / 10) 16 16 =
      nextBal (161 / 100) (1 / 10) (balFrom (161 / 100) (1 / 10) 16 15) from rfl,
      h15]
    with_unfolding_all rfl
  have h17 : balFrom (161 / 100) (1 / 10) 16 17 = (391 / 25 : ℚ) := by
    rw [show balFrom (161 / 100) (1 / 10) 16 17 =
      nextBal (161 / 100) (1 / 10) (balFrom (161 / 100) (1 / 10) 16 16) from rfl,
      h16]
    with_unfolding_all rfl
  have h18 : balFrom (161 / 100) (1 / 10) 16 18 = (1559 / 100 : ℚ) := by
    rw [show balFrom (161 / 100) (1 / 10) 16 18 =
      nextBal (161 / 100) (1 / 10) (balFrom (161 / 100) (1 / 10) 16 17) from rfl,
      h17]
    with_unfolding_all rfl
  have h19 : balFrom (161 / 100) (1 / 10) 16 19 = (777 / 50 : ℚ) := by
    rw [show balFrom (161 / 100) (1 / 10) 16 19 =
      nextBal (161 / 100) (1 / 10) (balFrom (161 / 100) (1 / 10) 16 18) from rfl,
      h18]
    with_unfolding_all rfl
  have h20 : balFrom (161 / 100) (1 / 10) 16 20 = (387 / 25 : ℚ) := by
    rw [show balFrom (161 / 100) (1 / 10) 16 20 =
      nextBal (161 / 100) (1 / 10) (balFrom (161 / 100) (1 / 10) 16 19) from rfl,
      h19]
    with_unfolding_all rfl
  have h21 : balFrom (161 / 100) (1 / 10) 16 21 = (771 / 50 : ℚ) := by
    rw [show balFrom (161 / 100) (1 / 10) 16 21 =
      nextBal (161 / 100) (1 / 10) (balFrom (161 / 100) (1 / 10) 16 20) from rfl,
      h20]
    with_unfolding_all rfl
  have h22 : balFrom (161 / 100) (1 / 10) 16 22 = (307 / 20 : ℚ) := by
    rw [show balFrom (161 / 100) (1 / 10) 16 22 =
      nextBal (161 / 100) (1 / 10) (balFrom (161 / 100) (1 / 10) 16 21) from rfl,
      h21]
    with_unfolding_all rfl
  have h23 : balFrom (161 / 100) (1 / 10) 16 23 = (382 / 25 : ℚ) := by
    rw [show balFrom (161 / 100) (1 / 10) 16 23 =
      nextBal (161 / 100) (1 / 10) (balFrom (161 / 100) (1 / 10) 16 22) from rfl,
      h22]
    with_unfolding_all rfl
  have h24 : balFrom (161 / 100) (1 / 10) 16 24 = (76 / 5 : ℚ) := by
    rw [show balFrom (161 / 100) (1 / 10) 16 24 =
      nextBal (161 / 100) (1 / 10) (balFrom (161 / 100) (1 / 10) 16 23) from rfl,
      h23]
    with_unfolding_all rfl
  have h25 : balFrom (161 / 100) (1 / 10) 16 25 = (1511 / 100 : ℚ) := by
    rw [show balFrom (161 / 100) (1 / 10) 16 25 =
      nextBal (161 / 100) (1 / 10) (balFrom (161 / 100) (1 / 10) 16 24) from rfl,
      h24]
    with_unfolding_all rfl
  have h26 : balFrom (161 / 100) (1 / 10) 16 26 = (1501 / 100 : ℚ) := by
    rw [show balFrom (161 / 100) (1 / 10) 16 26 =
      nextBal (161 / 100) (1 / 10) (balFrom (161 / 100) (1 / 10) 16 25) from rfl,
      h25]
    with_unfolding_all rfl
  have h27 : balFrom (161 / 100) (1 / 10) 16 27 = (149 / 10 : ℚ) := by
    rw [show balFrom (161 / 100) (1 / 10) 16 27 =
      nextBal (161 / 100) (1 / 10) (balFrom (161 / 100) (1 / 10) 16 26) from rfl,
      h26]
    with_unfolding_all rfl
  have h28 : balFrom (161 / 100) (1 / 10) 16 28 = (739 / 50 : ℚ) := by
    rw [show balFrom (161 / 100) (1 / 10) 16 28 =
      nextBal (161 / 100) (1 / 10) (balFrom (161 / 100) (1 / 10) 16 27) from rfl,
      h27]
    with_unfolding_all rfl
  have h29 : balFrom (161 / 100) (1 / 10) 16 29 = (293 / 20 : ℚ) := by
    rw [show balFrom (161 / 100) (1 / 10) 16 29 =
      nextBal (161 / 100) (1 / 10) (balFrom (161 / 100) (1 / 10) 16 28) from rfl,
      h28]
    with_unfolding_all rfl
  have h30 : balFrom (161 / 100) (1 / 10) 16 30 = (29 / 2 : ℚ) := by
    rw [show balFrom (161 / 100) (1 / 10) 16 30 =
      nextBal (161 / 100) (1 / 10) (balFrom (161 / 100) (1 / 10) 16 29) from rfl,
      h29]
    with_unfolding_all rfl
  have h31 : balFrom (161 / 100) (1 / 10) 16 31 = (717 / 50 : ℚ) := by
    rw [show balFrom (161 / 100) (1 / 10) 16 31 =
      nextBal (161 / 100) (1 / 10) (balFrom (161 / 100) (1 / 10) 16 30) from rfl,
      h30]
    with_unfolding_all rfl
  have h32 : balFrom (161 / 100) (1 / 10) 16 32 = (354 / 25 : ℚ) := by
    rw [show balFrom (161 / 100) (1 / 10) 16 32 =
      nextBal (161 / 100) (1 / 10) (balFrom (161 / 100) (1 / 10) 16 31) from rfl,
      h31]
    with_unfolding_all rfl
  have h33 : balFrom (161 / 100) (1 / 10) 16 33 = (1397 / 100 : ℚ) := by
    rw [show balFrom (161 / 100) (1 / 10) 16 33 =
      nextBal (161 / 100) (1 / 10) (balFrom (161 / 100) (1 / 10) 16 32) from rfl,
      h32]
    with_unfolding_all rfl
  have h34 : balFrom (161 / 100) (1 / 10) 16 34 = (344 / 25 : ℚ) := by
    rw [show balFrom (161 / 100) (1 / 10) 16 34 =
      nextBal (161 / 100) (1 / 10) (balFrom (161 / 100) (1 / 10) 16 33) from rfl,
      h33]
    with_unfolding_all rfl
  have h35 : balFrom (161 / 100) (1 / 10) 16 35 = (1353 / 100 : ℚ) := by
    rw [show balFrom (161 / 100) (1 / 10) 16 35 =
      nextBal (161 / 100) (1 / 10) (balFrom (161 / 100) (1 / 10) 16 34) from rfl,
      h34]
    with_unfolding_all rfl
  have h36 : balFrom (161 / 100) (1 / 10) 16 36 = (1327 / 100 : ℚ) := by
    rw [show balFrom (161 / 100) (1 / 10) 16 36 =
      nextBal (161 / 100) (1 / 10) (balFrom (161 / 100) (1 / 10) 16 35) from rfl,
      h35]
    with_unfolding_all rfl
  have h37 : balFrom (161 / 100) (1 / 10) 16 37 = (1299 / 100 : ℚ) := by
    rw [show balFrom (161 / 100) (1 / 10) 16 37 =
      nextBal (161 / 100) (1 / 10) (balFrom (161 / 100) (1 / 10) 16 36) from rfl,
      h36]
    with_unfolding_all rfl
  have h38 : balFrom (161 / 100) (1 / 10) 16 38 = (317 / 25 : ℚ) := by
    rw [show balFrom (161 / 100) (1 / 10) 16 38 =
      nextBal (161 / 100) (1 / 10) (balFrom (161 / 100) (1 / 10) 16 37) from rfl,
      h37]
    with_unfolding_all rfl
  have h39 : balFrom (161 / 100) (1 / 10) 16 39 = (617 / 50 : ℚ) := by
    rw [show balFrom (161 / 100) (1 / 10) 16 39 =
      nextBal (161 / 100) (1 / 10) (balFrom (161 / 100) (1 / 10) 16 38) from rfl,
      h38]
    with_unfolding_all rfl
  have h40 : balFrom (161 / 100) (1 / 10) 16 40 = (299 / 25 : ℚ) := by
    rw [show balFrom (161 / 100) (1 / 10) 16 40 =
      nextBal (161 / 100) (1 / 10) (balFrom (161 / 100) (1 / 10) 16 39) from rfl,
      h39]
    with_unfolding_all rfl
  have h41 : balFrom (161 / 100) (1 / 10) 16 41 = (231 / 20 : ℚ) := by
    rw [show balFrom (161 / 100) (1 / 10) 16 41 =
      nextBal (161 / 100) (1 / 10) (balFrom (161 / 100) (1 / 10) 16 40) from rfl,
      h40]
    with_unfolding_all rfl
  have h42 : balFrom (161 / 100) (1 / 10) 16 42 = (111 / 10 : ℚ) := by
    rw [show balFrom (161 / 100) (1 / 10) 16 42 =
      nextBal (161 / 100) (1 / 10) (balFrom (161 / 100) (1 / 10) 16 41) from rfl,
      h41]
    with_unfolding_all rfl
  have h43 : balFrom (161 / 100) (1 / 10) 16 43 = (53 / 5 : ℚ) := by
    rw [show balFrom (161 / 100) (1 / 10) 16 43 =
      nextBal (161 / 100) (1 / 10) (balFrom (161 / 100) (1 / 10) 16 42) from rfl,
      h42]
    with_unfolding_all rfl
  have h44 : balFrom (161 / 100) (1 / 10) 16 44 = (201 / 20 : ℚ) := by
    rw [show balFrom (161 / 100) (1 / 10) 16 44 =
      nextBal (161 / 100) (1 / 10) (balFrom (161 / 100) (1 / 10) 16 43) from rfl,
      h43]
    with_unfolding_all rfl
  have h45 : balFrom (161 / 100) (1 / 10) 16 45 = (236 / 25 : ℚ) := by
    rw [show balFrom (161 / 100) (1 / 10) 16 45 =
      nextBal (161 / 100) (1 / 10) (balFrom (161 / 100) (1 / 10) 16 44) from rfl,
      h44]
    with_unfolding_all rfl
  have h46 : balFrom (161 / 100) (1 / 10) 16 46 = (877 / 100 : ℚ) := by
    rw [show balFrom (161 / 100) (1 / 10) 16 46 =
      nextBal (161 / 100) (1 / 10) (balFrom (161 / 100) (1 / 10) 16 45) from rfl,
      h45]
    with_unfolding_all rfl
  have h47 : balFrom (161 / 100) (1 / 10) 16 47 = (201 / 25 : ℚ) := by
    rw [show balFrom (161 / 100) (1 / 10) 16 47 =
      nextBal (161 / 100) (1 / 10) (balFrom (161 / 100) (1 / 10) 16 46) from rfl,
      h46]
    with_unfolding_all rfl
  have h48 : balFrom (161 / 100) (1 / 10) 16 48 = (723 / 100 : ℚ) := by
    rw [show balFrom (161 / 100) (1 / 10) 16 48 =
      nextBal (161 / 100) (1 / 10) (balFrom (161 / 100) (1 / 10) 16 47) from rfl,
      h47]
    with_unfolding_all rfl
  have h49 : balFrom (161 / 100) (1 / 10) 16 49 = (317 / 50 : ℚ) := by
    rw [show balFrom (161 / 100) (1 / 10) 16 49 =
      nextBal (161 / 100) (1 / 10) (balFrom (161 / 100) (1 / 10) 16 48) from rfl,
      h48]
    with_unfolding_all rfl
  have h50 : balFrom (161 / 100) (1 / 10) 16 50 = (134 / 25 : ℚ) := by
    rw [show balFrom (161 / 100) (1 / 10) 16 50 =
      nextBal (161 / 100) (1 / 10) (balFrom (161 / 100) (1 / 10) 16 49) from rfl,
      h49]
    with_unfolding_all rfl
  have h51 : balFrom (161 / 100) (1 / 10) 16 51 = (429 / 100 : ℚ) := by
    rw [show balFrom (161 / 100) (1 / 10) 16 51 =
      nextBal (161 / 100) (1 / 10) (balFrom (161 / 100) (1 / 10) 16 50) from rfl,
      h50]
    with_unfolding_all rfl
  have h52 : balFrom (161 / 100) (1 / 10) 16 52 = (311 / 100 : ℚ) := by
    rw [show balFrom (161 / 100) (1 / 10) 16 52 =
      nextBal (161 / 100) (1 / 10) (balFrom (161 / 100) (1 / 10) 16 51) from rfl,
      h51]
    with_unfolding_all rfl
  have h53 : balFrom (161 / 100) (1 / 10) 16 53 = (181 / 100 : ℚ) := by
    rw [show balFrom (161 / 100) (1 / 10) 16 53 =
      nextBal (161 / 100) (1 / 10) (balFrom (161 / 100) (1 / 10) 16 52) from rfl,
      h52]
    with_unfolding_all rfl
  have h54 : balFrom (161 / 100) (1 / 10) 16 54 = (19 / 50 : ℚ) := by
    rw [show balFrom (161 / 100) (1 / 10) 16 54 =
      nextBal (161 / 100) (1 / 10) (balFrom (161 / 100) (1 / 10) 16 53) from rfl,
      h53]
    with_unfolding_all rfl
  have h55 : balFrom (161 / 100) (1 / 10) 16 55 = (-119 / 100 : ℚ) := by
    rw [show balFrom (161 / 100) (1 / 10) 16 55 =
      nextBal (161 / 100) (1 / 10) (balFrom (161 / 100) (1 / 10) 16 54) from rfl,
      h54]
    with_unfolding_all rfl
  have h56 : balFrom (161 / 100) (1 / 10) 16 56 = (-73 / 25 : ℚ) := by
    rw [show balFrom (161 / 100) (1 / 10) 16 56 =
      nextBal (161 / 100) (1 / 10) (balFrom (161 / 100) (1 / 10) 16 55) from rfl,
      h55]
    with_unfolding_all rfl
  have h57 : balFrom (161 / 100) (1 / 10) 16 57 = (-241 / 50 : ℚ) := by
    rw [show balFrom (161 / 100) (1 / 10) 16 57 =
      nextBal (161 / 100) (1 / 10) (balFrom (161 / 100) (1 / 10) 16 56) from rfl,
      h56]
    with_unfolding_all rfl
  have h58 : balFrom (161 / 100) (1 / 10) 16 58 = (-691 / 100 : ℚ) := by
    rw [show balFrom (161 / 100) (1 / 10) 16 58 =
      nextBal (161 / 100) (1 / 10) (balFrom (161 / 100) (1 / 10) 16 57) from rfl,
      h57]
    with_unfolding_all rfl
  have h59 : balFrom (161 / 100) (1 / 10) 16 59 = (-921 / 100 : ℚ) := by
    rw [show balFrom (161 / 100) (1 / 10) 16 59 =
      nextBal (161 / 100) (1 / 10) (balFrom (161 / 100) (1 / 10) 16 58) from rfl,
      h58]
    with_unfolding_all rfl
  exact h59

set_option maxRecDepth 4000 in
/-- Shallow parameters of the request `ex3`. -/
theorem ex3_params :
    n_payments ex3 = 60 ∧ periodic_rate ex3 = 1 / 10 ∧
      levelPay ex3 = 161 / 100 :=
  ⟨by with_unfolding_all rfl, by with_unfolding_all rfl,
    by with_unfolding_all rfl⟩

set_option maxRecDepth 4000 in
/-- Counterexample to claim C3 as stated: the valid request `ex3` produces a
schedule whose 59th line carries a negative balance, strictly below the final
line's zero balance, so the balance sequence is neither nonnegative nor
monotonically non-increasing. -/
theorem c3_balance_counterexample :
    ValidRequest ex3 ∧
    amortize ex3 = some (Except.ok (resultOf ex3)) ∧
    (schedOf ex3).length = 60 ∧
    ((schedOf ex3).getD 58 default).balance < 0 ∧
    ((schedOf ex3).getD 58 default).balance <
      ((schedOf ex3).getD 59 default).balance := by
  obtain ⟨hnp, hr, hlp⟩ := ex3_params
  have hok : amortize ex3 = some (Except.ok (resultOf ex3)) := by
    with_unfolding_all rfl
  obtain ⟨hn, hpay, hs⟩ := amortize_eq_ok ex3 (resultOf ex3) hok
  have htn : (n_payments ex3).toNat = 60 := by rw [hnp]; rfl
  have hlen : (schedOf ex3).length = 60 := by
    unfold schedOf
    rw [hs, schedList_length, htn]
  have hget58 : (schedOf ex3).getD 58 default =
      lineFrom (levelPay ex3) (periodic_rate ex3) ex3.start_date 60 1
        ex3.principal 58 := by
    unfold schedOf
    rw [hs]
    unfold schedList
    rw [htn]
    exact getD_map_range _ _ _ (by norm_num)
  have hget59 : (schedOf ex3).getD 59 default =
      lineFrom (levelPay ex3) (periodic_rate ex3) ex3.start_date 60 1
        ex3.principal 59 := by
    unfold schedOf
    rw [hs]
    unfold schedList
    rw [htn]
    exact getD_map_range _ _ _ (by norm_num)
  have hP : ex3.principal = (16 : ℚ) := rfl
  have hbal58 : ((schedOf ex3).getD 58 default).balance = -921 / 100 := by
    rw [hget58, lineFrom_balance_nonfinal _ _ _ _ _ _ _ (by norm_num), hlp,
      hr, hP]
    rw [show nextBal (161 / 100) (1 / 10) (balFrom (161 / 100) (1 / 10) 16 58) =
      balFrom (161 / 100) (1 / 10) 16 59 from rfl]
    exact ex3_balFrom_59
  have hbal59 : ((schedOf ex3).getD 59 default).balance = 0 := by
    rw [hget59]
    exact (lineFrom_final _ _ _ _ _ _ _ (by norm_num)).2.2
  refine ⟨by norm_num [ValidRequest, ex3], hok, hlen, ?_, ?_⟩
  · rw [hbal58]
    norm_num
  · rw [hbal58, hbal59]
    norm_num

/-- Claim C3 as amended: for every request on which `amortize` succeeds the
schedule is nonempty and its last line's balance is exactly zero; the
nonnegativity and monotonicity parts of the claim do not hold in general. -/
theorem c3_last_balance_zero (req : LoanRequest) (res : AmortizationResult)
    (h : amortize req = some (Except.ok res)) :
    res.schedule ≠ [] ∧
    (res.schedule.getD (res.schedule.length - 1) default).balance = 0 := by
  obtain ⟨hn, hpay, hs⟩ := amortize_eq_ok req res h
  have hlen : res.schedule.length = (n_payments req).toNat := by
    rw [hs, schedList_length]
  have hpos : 0 < (n_payments req).toNat := by omega
  constructor
  · intro hnil
    rw [hnil] at hlen
    simp only [List.length_nil] at hlen
    omega
  · rw [hs, schedList_length]
    unfold schedList
    rw [getD_map_range _ _ _ (by omega : (n_payments req).toNat - 1 <
      (n_payments req).toNat)]
    exact (lineFrom_final _ _ _ _ _ _ _ (by omega)).2.2

/-- Witness for the amended claim C3 at the concrete request `req6`. -/
theorem c3_last_balance_zero_witness :
    (resultOf req6).schedule ≠ [] ∧
    ((resultOf req6).schedule.getD ((resultOf req6).schedule.length - 1)
      default).balance = 0 :=
  c3_last_balance_zero req6 (resultOf req6) (by with_unfolding_all rfl)

/-- Accumulated rounding of the non-final principal payments stays within
half a cent per period of the drop in the running balance. -/
theorem sum_round_prefix (pay r P : ℚ) :
    ∀ m : ℕ,
      |(((List.range m).map
          (fun j => round2 (pay - round2 (balFrom pay r P j * r)))).sum) -
        (P - balFrom pay r P m)| ≤ (m : ℚ) * (1 / 200) := by
  intro m
  induction m with
  | zero => simp [balFrom]
  | succ m ih =>
    rw [List.range_succ, List.map_append, List.sum_append]
    simp only [List.map_cons, List.map_nil, List.sum_cons, List.sum_nil,
      add_zero]
    set S := ((List.range m).map
      (fun j => round2 (pay - round2 (balFrom pay r P j * r)))).sum with hS
    set bm := balFrom pay r P m with hbm
    set t := round2 (pay - round2 (bm * r)) with ht
    have hb1 : balFrom pay r P (m + 1) = round2 (bm - t) := rfl
    have hstep : |t - (bm - balFrom pay r P (m + 1))| ≤ 1 / 200 := by
      rw [hb1]
      have h2 := abs_round2_sub (bm - t)
      have harg : t - (bm - round2 (bm - t)) = round2 (bm - t) - (bm - t) := by
        ring
      rw [harg]
      exact h2
    have habs : |S + t - (P - balFrom pay r P (m + 1))| ≤
        |S - (P - bm)| + |t - (bm - balFrom pay r P (m + 1))| := by
      have harg : S + t - (P - balFrom pay r P (m + 1)) =
          (S - (P - bm)) + (t - (bm - balFrom pay r P (m + 1))) := by ring
      rw [harg]
      exact abs_add _ _
    have hcast : ((m + 1 : ℕ) : ℚ) = (m : ℚ) + 1 := by push_cast; ring
    rw [hcast]
    linarith

/-- Claim C4: the principal fields of a successful schedule sum to the
original principal within `0.01 * n_payments`. -/
theorem c4_principal_sum (req : LoanRequest) (res : AmortizationResult)
    (h : amortize req = some (Except.ok res)) :
    |sumPrincipal res.schedule - req.principal| ≤
      (n_payments req : ℚ) * (1 / 100) := by
  obtain ⟨hn, hpay, hs⟩ := amortize_eq_ok req res h
  have hNQ : (((n_payments req).toNat : ℕ) : ℚ) = ((n_payments req : ℤ) : ℚ) := by
    exact_mod_cast congrArg (fun z : ℤ => (z : ℚ))
      (Int.toNat_of_nonneg (le_of_lt hn))
  rw [hs]
  unfold sumPrincipal schedList
  rw [List.map_map]
  set N := (n_payments req).toNat with hN
  have hNpos : 0 < N := by omega
  have hsplit : List.range N = List.range (N - 1) ++ [N - 1] := by
    conv_lhs => rw [show N = (N - 1) + 1 from by omega]
    rw [List.range_succ]
  rw [hsplit, List.map_append, List.sum_append]
  simp only [List.map_cons, List.map_nil, List.sum_cons, List.sum_nil,
    add_zero, Function.comp_apply]
  set pay := levelPay req
  set r := periodic_rate req
  set P := req.principal
  have hpre : (List.range (N - 1)).map
      ((fun l => l.principal) ∘
        (lineFrom pay r req.start_date N 1 P)) =
      (List.range (N - 1)).map
        (fun j => round2 (pay - round2 (balFrom pay r P j * r))) := by
    apply List.map_congr_left
    intro j hj
    have hj2 := List.mem_range.mp hj
    rw [Function.comp_apply,
      lineFrom_principal_nonfinal _ _ _ _ _ _ _ (by omega)]
  rw [hpre]
  have hlast := (lineFrom_final pay r req.start_date N 1 P (N - 1)
    (by omega)).1
  rw [hlast]
  set S := ((List.range (N - 1)).map
    (fun j => round2 (pay - round2 (balFrom pay r P j * r)))).sum with hSdef
  set bl := balFrom pay r P (N - 1) with hbl
  have h1 : |S - (P - bl)| ≤ ((N - 1 : ℕ) : ℚ) * (1 / 200) :=
    sum_round_prefix pay r P (N - 1)
  have h2 := abs_round2_sub bl
  have habs : |S + round2 bl - P| ≤ |S - (P - bl)| + |round2 bl - bl| := by
    have harg : S + round2 bl - P = (S - (P - bl)) + (round2 bl - bl) := by
      ring
    rw [harg]
    exact abs_add _ _
  have hcast2 : ((N - 1 : ℕ) : ℚ) = (N : ℚ) - 1 := by
    push_cast [Nat.cast_sub (by omega : 1 ≤ N)]
    ring
  have hNQ2 : ((n_payments req : ℤ) : ℚ) = (N : ℚ) := by rw [← hNQ]
  rw [hNQ2]
  have hN1 : (1 : ℚ) ≤ (N : ℚ) := by exact_mod_cast hNpos
  rw [hcast2] at h1
  linarith

/-- Witness for claim C4 at the concrete request `req6`. -/
theorem c4_principal_sum_witness :
    |sumPrincipal (resultOf req6).schedule - req6.principal| ≤
      (n_payments req6 : ℚ) * (1 / 100) :=
  c4_principal_sum req6 (resultOf req6) (by with_unfolding_all rfl)

/-! ### Claims C6 to C10 -/

set_option maxRecDepth 8000 in
/-- Claim C6: the concrete scenario principal 1200, annual rate 12, one year
of monthly payments starting 2024-01-01 yields periodic rate 0.01, level
payment 106.62, a first line with interest 12.00, principal 94.62, balance
1105.38 dated 2024-01-01, and a twelfth (final) line with balance exactly
zero. -/
theorem c6_concrete_scenario :
    amortize req6 = some (Except.ok (resultOf req6)) ∧
    periodic_rate req6 = 1 / 100 ∧
    (resultOf req6).payment = 10662 / 100 ∧
    (resultOf req6).schedule.length = 12 ∧
    (resultOf req6).schedule.getD 0 default =
      { payment_no := 1, date := ⟨2024, 1, 1⟩, payment := 10662 / 100,
        interest := 12, principal := 9462 / 100, balance := 110538 / 100 } ∧
    ((resultOf req6).schedule.getD 11 default).balance = 0 := by
  refine ⟨by with_unfolding_all rfl, by with_unfolding_all rfl,
    by with_unfolding_all rfl, by with_unfolding_all rfl,
    by with_unfolding_all rfl, by with_unfolding_all rfl⟩

/-- Claim C7: `amortize` fails with the invalid-term error exactly when
`n_payments = round(term_years * payments_per_year)` is nonpositive; in
particular a zero term always produces that error.  The error is an
`Except.error` value of the embedding, mirroring the 400 response returned
(not thrown) by the source. -/
theorem c7_invalid_term (req : LoanRequest) :
    (amortize req = some (Except.error "Term must be positive") ↔
      n_payments req ≤ 0) ∧
    (req.term_years = 0 →
      amortize req = some (Except.error "Term must be positive")) := by
  have hzero : ∀ hreq : LoanRequest, hreq.term_years = 0 →
      n_payments hreq ≤ 0 := by
    intro hreq ht
    unfold n_payments
    have harg : hreq.term_years * (hreq.payments_per_year : ℚ) =
        ((0 : ℤ) : ℚ) := by
      rw [ht]
      push_cast
      ring
    rw [harg, rhe_intCast]
  constructor
  · constructor
    · intro h
      by_contra hn
      unfold amortize at h
      rw [if_neg hn] at h
      split at h
      · exact absurd h (by simp)
      · exact absurd h (by simp)
    · intro hn
      unfold amortize
      rw [if_pos hn]
  · intro ht
    unfold amortize
    rw [if_pos (hzero req ht)]

/-- Witness for claim C7 at the concrete zero-term request `req7`. -/
theorem c7_invalid_term_witness :
    amortize req7 = some (Except.error "Term must be positive") :=
  (c7_invalid_term req7).2 rfl

/-- Claim C8: the numeric coercion used by the normalizer on every numeric
field substitutes the default for an absent (`None`) value or a blank
string, fails with an error naming the specific field for any other
non-numeric string, and passes numeric values through; in particular
`principal = "abc"` makes normalization fail with the message naming
`principal`. -/
theorem c8_numeric_coercion :
    (∀ (d : ℚ) (name : String),
      parseFloat PyVal.none d name = Except.ok d) ∧
    (∀ (s : String) (d : ℚ) (name : String), s.trim = "" →
      parseFloat (PyVal.str s) d name = Except.ok d) ∧
    (∀ (s : String) (d : ℚ) (name : String), s.trim ≠ "" →
      pyFloatOfString s = Option.none →
      parseFloat (PyVal.str s) d name =
        Except.error ("Invalid numeric input for " ++ name)) ∧
    (∀ (s : String) (q d : ℚ) (name : String), s.trim ≠ "" →
      pyFloatOfString s = some q →
      parseFloat (PyVal.str s) d name = Except.ok q) ∧
    (∀ (d : ℤ) (name : String),
      parseInt PyVal.none d name = Except.ok d) ∧
    (∀ (s : String) (d : ℤ) (name : String), s.trim = "" →
      parseInt (PyVal.str s) d name = Except.ok d) ∧
    (∀ (s : String) (d : ℤ) (name : String), s.trim ≠ "" →
      pyIntOfString s = Option.none →
      parseInt (PyVal.str s) d name =
        Except.error ("Invalid integer input for " ++ name)) ∧
    normalize [("principal", PyVal.str "abc")] date0 =
      Except.error ("Invalid numeric input for " ++ "principal") := by
  refine ⟨?_, ?_, ?_, ?_, ?_, ?_, ?_, ?_⟩
  · intro d name
    rfl
  · intro s d name h
    simp [parseFloat, h]
  · intro s d name hne hnone
    simp [parseFloat, hne, hnone]
  · intro s q d name hne hsome
    simp [parseFloat, hne, hsome]
  · intro d name
    rfl
  · intro s d name h
    simp [parseInt, h]
  · intro s d name hne hnone
    simp [parseInt, hne, hnone]
  · with_unfolding_all rfl

/-- Witness for claim C8 at the field value `"abc"` for `principal`. -/
theorem c8_numeric_coercion_witness :
    parseFloat (PyVal.str "abc") 0 "principal" =
      Except.error ("Invalid numeric input for " ++ "principal") :=
  c8_numeric_coercion.2.2.1 "abc" 0 "principal" (by with_unfolding_all decide)
    (by with_unfolding_all rfl)

/-- Counterexample to claim C9 as stated: the empty string is a supplied
value that does not parse as a `YYYY-MM-DD` date, yet start-date coercion
(and full normalization) succeeds with the default date instead of failing
with the invalid-date error. -/
theorem c9_empty_string_counterexample :
    fromIso "" = Option.none ∧
    parseStartDate (some "") ⟨2025, 6, 15⟩ = Except.ok ⟨2025, 6, 15⟩ ∧
    normalize [("start_date", PyVal.str "")] ⟨2025, 6, 15⟩ =
      Except.ok
        { principal := 0, annual_rate := 0, term_years := 0,
          payments_per_year := 12, start_date := ⟨2025, 6, 15⟩ } := by
  refine ⟨rfl, rfl, by with_unfolding_all rfl⟩

/-- Claim C9 as amended: an absent or empty `start_date` defaults to the
current date; a supplied non-empty string succeeds exactly when it parses as
a `YYYY-MM-DD` calendar date, and any malformed non-empty value fails with
the invalid-date error. -/
theorem c9_start_date (v : Option String) (today : Date) :
    (v = Option.none → parseStartDate v today = Except.ok today) ∧
    (v = some "" → parseStartDate v today = Except.ok today) ∧
    (∀ (s : String) (d : Date), v = some s → s ≠ "" → fromIso s = some d →
      parseStartDate v today = Except.ok d) ∧
    (∀ s : String, v = some s → s ≠ "" → fromIso s = Option.none →
      parseStartDate v today =
        Except.error "Invalid start_date format, use YYYY-MM-DD") := by
  refine ⟨?_, ?_, ?_, ?_⟩
  · intro h
    subst h
    rfl
  · intro h
    subst h
    rfl
  · intro s d hv hne hiso
    subst hv
    simp [parseStartDate, hne, hiso]
  · intro s hv hne hiso
    subst hv
    simp [parseStartDate, hne, hiso]

/-- Witness for the amended claim C9 at the malformed value
`"not-a-date"`. -/
theorem c9_start_date_witness :
    parseStartDate (some "not-a-date") date0 =
      Except.error "Invalid start_date format, use YYYY-MM-DD" :=
  (c9_start_date (some "not-a-date") date0).2.2.2 "not-a-date" rfl
    (by decide) rfl

/-- Claim C10: the annuity division of the payment formula is guarded only
by the zero-rate test, so well-typed negative-rate requests reach a division
or power error: with periodic rate −2 and an even payment count the
denominator `1 - (1 + r) ** (-n)` is zero, and with periodic rate −1 the
power itself is `0.0 ** (-n)`; both make `amortize` crash (`none`) instead
of returning an error value. -/
theorem c10_unguarded_division :
    exA.annual_rate < 0 ∧ periodic_rate exA = -2 ∧ n_payments exA = 2 ∧
      payCrash exA ∧ amortize exA = none ∧
    exB.annual_rate < 0 ∧ periodic_rate exB = -1 ∧
      payCrash exB ∧ amortize exB = none := by
  refine ⟨by norm_num [exA], by with_unfolding_all rfl,
    by with_unfolding_all rfl, by with_unfolding_all decide,
    by with_unfolding_all rfl, by norm_num [exB],
    by with_unfolding_all rfl, by with_unfolding_all decide,
    by with_unfolding_all rfl⟩

end SimpleLoan
